import Mathlib

/-!
Verification of the DynamoDB table abstraction in `src/api/BaseDB.py`
(class `BaseDynamoDBAbstraction`) together with the error taxonomy of
`src/api/Exceptions.py`.

The Python code is shallowly embedded: Python dictionaries become ordered
association lists, Python values become the inductive `PyVal`, raised
exceptions become `Except` errors, and the external boto3 store client is
modelled by passing each operation the response (or response function) the
store would produce for the issued call.  Python floats and `decimal.Decimal`
values are modelled by the exact rational they denote (every finite Python
float is an exact rational; this identifies values only up to the
float/exact-decimal representational boundary, which is precisely the
granularity at which the specification states its numeric properties).
-/

namespace BaseDB

/-- Python runtime values, one level deep as used by `BaseDB.py`.
`float` and `decimal` carry the exact rational the Python value denotes.
`bytes` models both `bytes` and `bytearray` payloads as the byte list.
`binary` models `boto3.dynamodb.types.Binary`, whose `.value` field holds
the wrapped raw bytes.  `wireDict` models a still-undecoded DynamoDB wire
value dictionary (a Python `dict` mapping a type tag to its string payload),
which is what an attribute of a raw response item holds before `infer_types`
replaces it. -/
inductive PyVal where
  | str (s : String)
  | int (n : Int)
  | float (q : ℚ)
  | bool (b : Bool)
  | none
  | bytes (b : List Nat)
  | binary (b : List Nat)
  | decimal (q : ℚ)
  | list (l : List PyVal)
  | dict (d : List (String × PyVal))
  | wireDict (d : List (String × String))

/-- A Python dictionary with string keys, as an ordered association list with
unique keys (Python dict semantics: updates keep position, new keys append). -/
abbrev Dict := List (String × PyVal)

/-- Exceptions that `BaseDB.py` can raise: the API exception classes of
`src/api/Exceptions.py` (each with its fixed default status code) plus the
Python builtin exceptions reachable in the module. -/
inductive PyError where
  | notImplementedError (msg : String)
  | notFoundError (msg : String)
  | missingParameter (msg : String)
  | invalidParameter (msg : String)
  | invalidMethodError (msg : String)
  | serverError (msg : String)
  | valueError (msg : String)
  | keyError (msg : String)
  | typeError (msg : String)
  | attributeError (msg : String)
  | indexError (msg : String)
  deriving Repr, DecidableEq

/-- Default HTTP status code each API exception of `Exceptions.py` carries;
Python builtin exceptions carry none. -/
def PyError.code : PyError → Option Nat
  | .notImplementedError _ => Option.some 501
  | .notFoundError _ => Option.some 404
  | .missingParameter _ => Option.some 400
  | .invalidParameter _ => Option.some 400
  | .invalidMethodError _ => Option.some 405
  | .serverError _ => Option.some 500
  | _ => Option.none

/-- `DYNAMODB_KEY_TYPES = Union[str, int, Decimal]`: the values accepted for
partition and sort keys. -/
inductive KeyValue where
  | str (s : String)
  | int (n : Int)
  | decimal (q : ℚ)

/-- A key value seen as the Python value it is. -/
def KeyValue.toPyVal : KeyValue → PyVal
  | .str s => PyVal.str s
  | .int n => PyVal.int n
  | .decimal q => PyVal.decimal q

/-- Python `d[k] = v` on a dict: update in place when the key is present
(keeping its position), append otherwise.  (Keys of a Python dict are unique,
so replacing the first occurrence is replacing the occurrence.) -/
def dictSet (d : Dict) (k : String) (v : PyVal) : Dict :=
  match d with
  | [] => [(k, v)]
  | (k₁, v₁) :: t => if k₁ == k then (k, v) :: t else (k₁, v₁) :: dictSet t k v

/-- Python `d.get(k)` on a dict (keys are unique, so first match). -/
def dictGet (d : Dict) (k : String) : Option PyVal :=
  d.lookup k

/-- Numeric value of a digit string (most significant digit first). -/
def digitsVal (cs : List Char) : Nat :=
  cs.foldl (fun a c => 10 * a + (c.toNat - 48)) 0

/-- Python `float(x)` on the plain decimal literals that DynamoDB numeric wire
payloads use: optional sign, digits, optional decimal point and fraction
digits.  Returns the exact rational the literal denotes; `Option.none` models
the `ValueError` Python raises on a malformed literal.  (Exponent notation,
`inf`/`nan` and underscores are outside the modelled subset.) -/
def pyFloat (x : String) : Option ℚ :=
  let cs := x.toList
  let signAndRest : Bool × List Char :=
    match cs with
    | '-' :: rest => (true, rest)
    | '+' :: rest => (false, rest)
    | cs => (false, cs)
  let neg := signAndRest.1
  let cs1 := signAndRest.2
  let intPart := cs1.takeWhile Char.isDigit
  let rest1 := cs1.dropWhile Char.isDigit
  let signed : Nat → Int := fun m => if neg then -(m : Int) else (m : Int)
  match rest1 with
  | [] =>
      if intPart.isEmpty then Option.none
      else Option.some (mkRat (signed (digitsVal intPart)) 1)
  | '.' :: fracRest =>
      let fracPart := fracRest.takeWhile Char.isDigit
      let rest2 := fracRest.dropWhile Char.isDigit
      if rest2.isEmpty && !(intPart.isEmpty && fracPart.isEmpty) then
        Option.some (mkRat (signed (digitsVal (intPart ++ fracPart))) (10 ^ fracPart.length))
      else Option.none
  | _ => Option.none

/-- Python `int(f)` on a float: truncation toward zero of the exact rational. -/
def pyTrunc (q : ℚ) : Int :=
  q.num.sign * (q.num.natAbs / q.den)

/-- ASCII lowercasing of a string; used to state what the case-insensitive
token "true" is. -/
def lowerAscii (s : String) : String :=
  String.mk (s.toList.map (fun c =>
    if 65 ≤ c.toNat ∧ c.toNat ≤ 90 then Char.ofNat (c.toNat + 32) else c))

example : pyFloat "3.0" = Option.some (mkRat 30 10) := rfl
example : pyFloat "3.5" = Option.some (mkRat 35 10) := rfl
example : pyTrunc (mkRat 35 10) = 3 := rfl
example : pyTrunc (mkRat (-35) 10) = -3 := rfl

/-! JSON parsing, modelling Python `json.loads` as used by the `L`, `M`, `NS`
and `SS` decoders of `infer_types`.  The modelled grammar covers objects,
arrays, strings without escape sequences, numbers without exponents, and the
`true`/`false`/`null` literals; a failure models `json.JSONDecodeError`
(a subclass of `ValueError`). -/

/-- Skip JSON whitespace. -/
def jsonWs (cs : List Char) : List Char :=
  cs.dropWhile (fun c => c == ' ' || c == '\n' || c == '\t' || c == '\r')

/-- Parse the remainder of a JSON string literal (after the opening quote),
returning its characters and the input after the closing quote. -/
def jsonStringChars : List Char → Option (List Char × List Char)
  | [] => Option.none
  | '"' :: rest => Option.some ([], rest)
  | '\\' :: _ => Option.none
  | c :: rest => (jsonStringChars rest).map (fun p => (c :: p.1, p.2))

/-- Parse a JSON number: optional minus sign, digits, optional fraction.
A number with a fraction becomes a Python float, one without becomes an int. -/
def jsonNumber (cs : List Char) : Option (PyVal × List Char) :=
  let signAndRest : Bool × List Char :=
    match cs with
    | '-' :: rest => (true, rest)
    | cs => (false, cs)
  let neg := signAndRest.1
  let cs1 := signAndRest.2
  let ds := cs1.takeWhile Char.isDigit
  let rest1 := cs1.dropWhile Char.isDigit
  let signed : Nat → Int := fun m => if neg then -(m : Int) else (m : Int)
  if ds.isEmpty then Option.none
  else
    match rest1 with
    | '.' :: fracRest =>
        let fs := fracRest.takeWhile Char.isDigit
        let rest2 := fracRest.dropWhile Char.isDigit
        if fs.isEmpty then Option.none
        else Option.some (PyVal.float (mkRat (signed (digitsVal (ds ++ fs))) (10 ^ fs.length)), rest2)
    | _ => Option.some (PyVal.int (signed (digitsVal ds)), rest1)

mutual

/-- Parse one JSON value; the fuel bounds recursion depth. -/
def jsonValue : Nat → List Char → Option (PyVal × List Char)
  | 0, _ => Option.none
  | Nat.succ fuel, cs =>
    match jsonWs cs with
    | [] => Option.none
    | '"' :: rest => (jsonStringChars rest).map (fun p => (PyVal.str (String.mk p.1), p.2))
    | '[' :: rest =>
        (match jsonWs rest with
         | ']' :: r2 => Option.some (PyVal.list [], r2)
         | r2 => (jsonItems fuel r2).map (fun p => (PyVal.list p.1, p.2)))
    | '\x7b' :: rest =>
        (match jsonWs rest with
         | '\x7d' :: r2 => Option.some (PyVal.dict [], r2)
         | r2 => (jsonMembers fuel r2).map (fun p => (PyVal.dict p.1, p.2)))
    | 't' :: 'r' :: 'u' :: 'e' :: rest => Option.some (PyVal.bool true, rest)
    | 'f' :: 'a' :: 'l' :: 's' :: 'e' :: rest => Option.some (PyVal.bool false, rest)
    | 'n' :: 'u' :: 'l' :: 'l' :: rest => Option.some (PyVal.none, rest)
    | cs1 => jsonNumber cs1

/-- Parse the elements of a nonempty JSON array up to and including `]`. -/
def jsonItems : Nat → List Char → Option (List PyVal × List Char)
  | 0, _ => Option.none
  | Nat.succ fuel, cs =>
    match jsonValue fuel cs with
    | Option.none => Option.none
    | Option.some (v, rest) =>
      match jsonWs rest with
      | ',' :: r2 =>
          (match jsonItems fuel r2 with
           | Option.none => Option.none
           | Option.some (vs, r3) => Option.some (v :: vs, r3))
      | ']' :: r2 => Option.some ([v], r2)
      | _ => Option.none

/-- Parse the members of a nonempty JSON object up to and including the
closing brace. -/
def jsonMembers : Nat → List Char → Option (List (String × PyVal) × List Char)
  | 0, _ => Option.none
  | Nat.succ fuel, cs =>
    match jsonWs cs with
    | '"' :: rest =>
      (match jsonStringChars rest with
       | Option.none => Option.none
       | Option.some (key, r1) =>
         match jsonWs r1 with
         | ':' :: r2 =>
           (match jsonValue fuel r2 with
            | Option.none => Option.none
            | Option.some (v, r3) =>
              match jsonWs r3 with
              | ',' :: r4 =>
                  (match jsonMembers fuel r4 with
                   | Option.none => Option.none
                   | Option.some (ms, r5) => Option.some ((String.mk key, v) :: ms, r5))
              | '\x7d' :: r4 => Option.some ([(String.mk key, v)], r4)
              | _ => Option.none)
         | _ => Option.none)
    | _ => Option.none

end

/-- Python `json.loads(s)` on the modelled grammar. -/
def json_loads (s : String) : Except PyError PyVal :=
  match jsonValue (2 * s.length + 2) s.toList with
  | Option.some (v, rest) =>
      if (jsonWs rest).isEmpty then Except.ok v
      else Except.error (PyError.valueError "Extra data")
  | Option.none => Except.error (PyError.valueError "Expecting value")

example : json_loads "[1, 2.5]" = Except.ok (PyVal.list [PyVal.int 1, PyVal.float (mkRat 25 10)]) := rfl

/-! The `infer_types` static method of `BaseDynamoDBAbstraction`. -/

/-- A raw response item: attribute name to wire value dictionary (type tag to
string payload), e.g. `[("year", [("N", "2015")])]`. -/
abbrev WireItem := List (String × List (String × String))

/-- A decoded item. -/
abbrev Item := List (String × PyVal)

/-- The `N` entry of the `conversions` dictionary:
`lambda x: int(float(x)) if float(x) - int(float(x)) == 0 else float(x)`.
The Python test `float(x) - int(float(x)) == 0` is the statement that the
parsed value equals its truncation, expressed here as an equality of exact
rationals (`mkRat (pyTrunc q) 1` is the rational value of the Python int). -/
def convN (x : String) : Except PyError PyVal :=
  match pyFloat x with
  | Option.none => Except.error (PyError.valueError ("could not convert string to float: " ++ x))
  | Option.some q =>
      if q = mkRat (pyTrunc q) 1 then Except.ok (PyVal.int (pyTrunc q))
      else Except.ok (PyVal.float q)

/-- The `BOOL` entry: `lambda x: True if x in ('True', 'true', 'TRUE') else False`. -/
def convBOOL (x : String) : Except PyError PyVal :=
  Except.ok (PyVal.bool (x == "True" || x == "true" || x == "TRUE"))

/-- The `B` entry: `lambda x: bytes(x)`.  The wire payload is a string, and
Python `bytes(str)` raises `TypeError: string argument without an encoding`. -/
def convB (_x : String) : Except PyError PyVal :=
  Except.error (PyError.typeError "string argument without an encoding")

/-- The `conversions` dictionary of `infer_types`: the decoder for each
recognized wire type tag, `Option.none` for an unrecognized tag (on which the
Python subscript `conversions[dtype]` raises `KeyError`). -/
def conversions (dtype : String) : Option (String → Except PyError PyVal) :=
  if dtype = "N" then Option.some convN
  else if dtype = "S" then Option.some (fun x => Except.ok (PyVal.str x))
  else if dtype = "BOOL" then Option.some convBOOL
  else if dtype = "NULL" then Option.some (fun _ => Except.ok PyVal.none)
  else if dtype = "B" then Option.some convB
  else if dtype = "L" then Option.some json_loads
  else if dtype = "M" then Option.some json_loads
  else if dtype = "NS" then Option.some json_loads
  else if dtype = "SS" then Option.some json_loads
  else Option.none

/-- The inner loop of `infer_types`: for each tag entry of one attribute's wire
value dictionary, `item[attr_name] = conversions[dtype](value)`; each
assignment overwrites the previous one, so the last entry wins, and a lookup
or decode failure of any entry propagates. -/
def applyConversions : List (String × String) → Option PyVal → Except PyError (Option PyVal)
  | [], acc => Except.ok acc
  | (dtype, value) :: rest, _ =>
    match conversions dtype with
    | Option.none => Except.error (PyError.keyError dtype)
    | Option.some f =>
      match f value with
      | Except.error e => Except.error e
      | Except.ok v => applyConversions rest (Option.some v)

/-- Decode one raw item: an attribute whose wire value dictionary is empty is
never assigned to, so it keeps the raw wire dictionary as its value. -/
def inferItem : WireItem → Except PyError Item
  | [] => Except.ok []
  | (attr, val_dict) :: rest =>
    match applyConversions val_dict Option.none with
    | Except.error e => Except.error e
    | Except.ok v =>
      match inferItem rest with
      | Except.error e => Except.error e
      | Except.ok rest' =>
          Except.ok ((attr, match v with
                            | Option.none => PyVal.wireDict val_dict
                            | Option.some v => v) :: rest')

/-- The static method `infer_types` on a list of raw items (the shape
`batch_get_by_key` passes it; a bare item is first wrapped into a singleton
list by `if not isinstance(items, list): items = [items]`, see
`infer_types_single`). -/
def infer_types : List WireItem → Except PyError (List Item)
  | [] => Except.ok []
  | it :: rest =>
    match inferItem it with
    | Except.error e => Except.error e
    | Except.ok d =>
      match infer_types rest with
      | Except.error e => Except.error e
      | Except.ok ds => Except.ok (d :: ds)

/-- `infer_types` on a bare (non-list) item: the wrapping branch of the
source. -/
def infer_types_single (item : WireItem) : Except PyError (List Item) :=
  infer_types [item]

example : infer_types [[("a", [("N", "3.0")])]] = Except.ok [[("a", PyVal.int 3)]] := rfl
example : infer_types [[("a", [("N", "3.5")])]] = Except.ok [[("a", PyVal.float (mkRat 35 10))]] := rfl
example : infer_types [[("a", [("BOOL", "tRue")])]] = Except.ok [[("a", PyVal.bool false)]] := rfl
example : infer_types [[("a", [("BOOL", "TRUE")])]] = Except.ok [[("a", PyVal.bool true)]] := rfl
example : infer_types [[("a", [("X", "1")])]] = Except.error (PyError.keyError "X") := rfl

/-! The `convert_dtypes` static method. -/

/-- One step of the `dynamo2native` loop of `convert_dtypes`: a boxed
`Binary` is unwrapped to its `.value` raw bytes, a `Decimal` becomes
`float(v)`; every other value is left alone. -/
def dynamo2nativeStep (v : PyVal) : PyVal :=
  match v with
  | PyVal.binary b => PyVal.bytes b
  | PyVal.decimal q => PyVal.float q
  | v => v

/-- One step of the `native2dynamo` loop of `convert_dtypes`.  For a
`bytes`/`bytearray` value the source executes `item[k] = Binary(bytes)`:
it passes the builtin type object `bytes` (not the value `v`) to the
`boto3.dynamodb.types.Binary` constructor, whose isinstance check rejects
anything that is not a bytes/bytearray instance, so the call raises
`TypeError` instead of boxing the value.  A float becomes `Decimal(v)`,
which is exact on floats. -/
def native2dynamoStep (v : PyVal) : Except PyError PyVal :=
  match v with
  | PyVal.bytes _ => Except.error (PyError.typeError "Value must be of the following types: bytearray, bytes")
  | PyVal.float q => Except.ok (PyVal.decimal q)
  | v => Except.ok v

/-- The `native2dynamo` loop, which mutates the dictionary in place: the
returned dictionary is the state of the (caller's) dictionary object when the
loop finishes or the exception is raised — entries before the failing one are
already converted, the failing entry and the ones after it are untouched. -/
def convertItemsN2D : Dict → Dict × Option PyError
  | [] => ([], Option.none)
  | (k, v) :: rest =>
    match native2dynamoStep v with
    | Except.error e => ((k, v) :: rest, Option.some e)
    | Except.ok v' =>
      let r := convertItemsN2D rest
      ((k, v') :: r.1, r.2)

/-- The `allowed_types` list of `convert_dtypes`. -/
def allowed_types : List String := ["dynamo2native", "native2dynamo"]

/-- The static method `convert_dtypes(item, type)`. -/
def convert_dtypes (item : Dict) (type : String) : Except PyError Dict :=
  if !(allowed_types.contains type) then
    Except.error (PyError.valueError ("Invalid type of conversion: " ++ type))
  else if type = "dynamo2native" then
    Except.ok (item.map (fun p => (p.1, dynamo2nativeStep p.2)))
  else
    match convertItemsN2D item with
    | (d, Option.none) => Except.ok d
    | (_, Option.some e) => Except.error e

example : convert_dtypes [("x", PyVal.float (mkRat 3 2))] "native2dynamo"
    = Except.ok [("x", PyVal.decimal (mkRat 3 2))] := rfl
example : convert_dtypes [("b", PyVal.bytes [7])] "native2dynamo"
    = Except.error (PyError.typeError "Value must be of the following types: bytearray, bytes") := rfl
example : convert_dtypes [("b", PyVal.binary [7]), ("x", PyVal.decimal 3)] "dynamo2native"
    = Except.ok [("b", PyVal.bytes [7]), ("x", PyVal.float 3)] := rfl

/-! The table handle and its construction (`__init__`). -/

/-- The state of a `BaseDynamoDBAbstraction` object.  `tableName` stands for
the identity of the boto3 `client`/`resource`/`table` objects (external,
never modified by the module); `keySchema` is the list of attribute names of
the table's key schema in order; `sortKey` is `Option.some` exactly when
`__init__` set the `self.sort_key` attribute.  `payload` models the
`self.payload` attribute that `scan_table` assigns (`Option.none` while the
attribute does not exist on the object). -/
structure TableHandle where
  verbose : Bool
  debug : Bool
  tableName : String
  keySchema : List String
  partitionKey : String
  sortKey : Option String
  payload : Option Dict

/-- `__init__(client, table_name, verbose, debug)`: derives
`self.partition_key = self.key_schema[0]['AttributeName']` (an `IndexError`
on an empty schema) and sets `self.sort_key` only when the key schema has
exactly two components. -/
def initBase (tableName : String) (keySchema : List String) (verbose debug : Bool) :
    Except PyError TableHandle :=
  match keySchema with
  | [] => Except.error (PyError.indexError "list index out of range")
  | pk :: rest =>
      Except.ok { verbose := verbose, debug := debug, tableName := tableName,
                  keySchema := pk :: rest, partitionKey := pk,
                  sortKey := if (pk :: rest).length = 2 then rest.head? else Option.none,
                  payload := Option.none }

/-! Key schema resolution helpers. -/

/-- `define_key_args(pk_value, sk_value)`, returning the `Key` map of the
built arguments: `{partition_key: pk_value}` plus, for a two-component key
schema, `{sort_key: sk_value}` — after first raising `MissingParameter` when
the schema has two components and `sk_value` is `None`.  Reading
`self.sort_key` on a handle where `__init__` did not set it would raise
`AttributeError`, but that read is unreachable for handles built by
`initBase`. -/
def define_key_args (h : TableHandle) (pk_value : KeyValue) (sk_value : Option KeyValue) :
    Except PyError Dict :=
  let arguments : Dict := [(h.partitionKey, pk_value.toPyVal)]
  if h.keySchema.length = 2 then
    match sk_value with
    | Option.none =>
        Except.error (PyError.missingParameter "Table requires a sort key value but none was provided")
    | Option.some sk =>
        match h.sortKey with
        | Option.some sortName => Except.ok (dictSet arguments sortName sk.toPyVal)
        | Option.none => Except.error (PyError.attributeError "sort_key")
  else Except.ok arguments

/-- `define_list_key_args(pk_list, sk_list)`, returning the list of key maps
under `RequestItems[table.name]['Keys']`.  With a two-component schema and
`sk_list` left as `None`, `len(sk_list)` raises `TypeError`; unequal lengths
raise `ValueError`. -/
def define_list_key_args (h : TableHandle) (pk_list : List KeyValue)
    (sk_list : Option (List KeyValue)) : Except PyError (List Dict) :=
  if h.keySchema.length = 2 then
    match sk_list with
    | Option.none => Except.error (PyError.typeError "object of type NoneType has no len()")
    | Option.some sks =>
        if sks.length ≠ pk_list.length then
          Except.error (PyError.valueError "The number of primary keys and sort keys must be the same")
        else
          match h.sortKey with
          | Option.some sortName =>
              Except.ok ((pk_list.zip sks).map
                (fun p => dictSet [(h.partitionKey, p.1.toPyVal)] sortName p.2.toPyVal))
          | Option.none => Except.error (PyError.attributeError "sort_key")
  else
    Except.ok (pk_list.map (fun pk => [(h.partitionKey, pk.toPyVal)]))

/-! Store responses.  The boto3 client and table objects are external
collaborators: each operation is modelled as a function of the response the
store returns for the single call the operation issues. -/

/-- Response to `table.get_item`: the HTTP status code from the response
metadata and the `Item` entry (absent when the key does not exist). -/
structure GetItemResponse where
  httpStatusCode : Nat
  item : Option Dict

/-- Response to `client.batch_get_item`: `Responses` maps table names to
lists of raw (wire format) items, `UnprocessedKeys` maps table names to the
structure whose `Keys` entry is the list of key maps not processed in this
round (the whole mapping is empty when everything was processed). -/
structure BatchGetResponse where
  httpStatusCode : Nat
  responses : List (String × List WireItem)
  unprocessedKeys : List (String × List Dict)

/-- Response to `table.put_item` or `table.delete_item`. -/
structure WriteResponse where
  httpStatusCode : Nat

/-- Response to `table.scan`. -/
structure ScanResponse where
  httpStatusCode : Nat
  items : List Dict

/-- Response to `table.update_item` on success: status code and the optional
`Attributes` entry. -/
structure UpdateResponse where
  httpStatusCode : Nat
  attributes : Option Dict

/-- Outcome of the `table.update_item` call: either the boto3 client raised
`botocore.exceptions.ClientError` (as it does when the condition expression
check fails, e.g. because the target attribute does not exist on the item, or
when a supplied value fails validation) or it returned a response. -/
inductive UpdateCallResult where
  | clientError (msg : String)
  | ok (resp : UpdateResponse)

/-! Read operations. -/

/-- The payload `get_by_keys` returns: the decoded item under `data`. -/
structure GetPayload where
  data : Dict

/-- Python `str(...)` of a key value, for interpolated messages. -/
def KeyValue.pyStr : KeyValue → String
  | .str s => s
  | .int n => toString n
  | .decimal q => toString q

/-- Python `f'{sk_value}'` where `sk_value` may be `None`. -/
def optPyStr : Option KeyValue → String
  | Option.none => "None"
  | Option.some kv => kv.pyStr

/-- `get_by_keys(pk_value, sk_value, AttributesToGet)`: resolve the key
(raising `MissingParameter` for a composite table without a sort key value),
issue `get_item`, convert the returned item with `dynamo2native`, and raise
`NotFoundError` when the response has no `Item` entry.  `AttributesToGet`
only restricts the projection the store applies; the store's effect is
already reflected in the supplied response. -/
def get_by_keys (h : TableHandle) (resp : GetItemResponse) (pk_value : KeyValue)
    (sk_value : Option KeyValue) (_AttributesToGet : List String) :
    Except PyError (GetPayload × Nat) :=
  match define_key_args h pk_value sk_value with
  | Except.error e => Except.error e
  | Except.ok _arguments =>
    match resp.item with
    | Option.none =>
        Except.error (PyError.notFoundError
          ("Item " ++ pk_value.pyStr ++ optPyStr sk_value ++ " was not found"))
    | Option.some it =>
      match convert_dtypes it "dynamo2native" with
      | Except.error e => Except.error e
      | Except.ok d => Except.ok ({ data := d }, resp.httpStatusCode)

/-- The payload `batch_get_by_key` returns: decoded items under `data` and,
when the store reported unprocessed keys, their key maps under `error`. -/
structure BatchPayload where
  data : List Item
  error : Option (List Dict)

/-- `batch_get_by_key(pk_list, sk_list, AttributesToGet)`: resolve the batch
key maps, issue one `batch_get_item`, decode the raw items of
`Responses[table.name]` with `infer_types`, raise `NotFoundError` when the
decoded list is empty, and copy `UnprocessedKeys[table.name]['Keys']` into
the payload's `error` field when `UnprocessedKeys` is non-empty (a non-empty
mapping that lacks this table raises `KeyError`). -/
def batch_get_by_key (h : TableHandle) (resp : BatchGetResponse)
    (pk_list : List KeyValue) (sk_list : Option (List KeyValue))
    (_AttributesToGet : List String) : Except PyError (BatchPayload × Nat) :=
  match define_list_key_args h pk_list sk_list with
  | Except.error e => Except.error e
  | Except.ok _arguments =>
    match resp.responses.lookup h.tableName with
    | Option.none => Except.error (PyError.keyError h.tableName)
    | Option.some rs =>
      match infer_types rs with
      | Except.error e => Except.error e
      | Except.ok data =>
        if data.isEmpty then
          Except.error (PyError.notFoundError "None of the items were found")
        else if resp.unprocessedKeys.isEmpty then
          Except.ok ({ data := data, error := Option.none }, resp.httpStatusCode)
        else
          match resp.unprocessedKeys.lookup h.tableName with
          | Option.none => Except.error (PyError.keyError h.tableName)
          | Option.some keys =>
              Except.ok ({ data := data, error := Option.some keys }, resp.httpStatusCode)

/-- `scan_table(**kwargs)`: assigns `self.payload = ` the empty dict (the one
write to `self` outside `__init__` in the whole class), issues `table.scan()`
and returns the raw items with the status code.  The first component of the
result is the handle object as it is after the call. -/
def scan_table (h : TableHandle) (resp : ScanResponse) :
    TableHandle × (List Dict × Nat) :=
  ({ h with payload := Option.some [] }, (resp.items, resp.httpStatusCode))

/-! Write operations. -/

/-- What `add_item(pk_value, sk_value, item)` leaves behind: `callerItem` is
the state of the caller's `item` dictionary object after the call (the key
merge loop `item[k] = v` and `convert_dtypes(item, "native2dynamo")` both
mutate it in place), `storedItem` is the dictionary passed to
`table.put_item` when the call gets that far, and `result` is the returned
`(success, statusCode)` pair or the raised exception. -/
structure AddItemOutcome where
  callerItem : Dict
  storedItem : Option Dict
  result : Except PyError (Bool × Nat)

/-- `add_item(pk_value, sk_value, item)`: resolve the key, write each
resolved key field into the item (overwriting identically named fields),
convert the item with `native2dynamo`, and issue `put_item`; success is
`statusCode == 200`. -/
def add_item (h : TableHandle) (resp : WriteResponse) (pk_value : KeyValue)
    (sk_value : Option KeyValue) (item : Dict) : AddItemOutcome :=
  match define_key_args h pk_value sk_value with
  | Except.error e =>
      { callerItem := item, storedItem := Option.none, result := Except.error e }
  | Except.ok key_args =>
    let merged := key_args.foldl (fun d kv => dictSet d kv.1 kv.2) item
    match convertItemsN2D merged with
    | (d, Option.some e) =>
        { callerItem := d, storedItem := Option.none, result := Except.error e }
    | (d, Option.none) =>
        { callerItem := d, storedItem := Option.some d,
          result := Except.ok (resp.httpStatusCode == 200, resp.httpStatusCode) }

/-- The arguments `update_item` builds for `table.update_item`. -/
structure UpdateArguments where
  key : Dict
  updateExpression : String
  expressionAttributeValues : List (String × PyVal)
  returnValues : String
  conditionExpression : String

/-- The keyword arguments of `update_item` that override the defaults. -/
structure UpdateKwargs where
  returnValues : Option String
  conditionExpression : Option String

/-- The payload `update_item` returns. -/
structure UpdatePayload where
  data : Option Dict
  message : String

/-- The argument construction of `update_item`: the key map from
`define_key_args`, the single-attribute `SET` expression, and the
caller-overridable `ReturnValues` (default `UPDATED_OLD`) and
`ConditionExpression` (default `attribute_exists(attribute_name)`). -/
def update_item_arguments (h : TableHandle) (pk_value : KeyValue)
    (sk_value : Option KeyValue) (attribute_name : String) (attribute_value : PyVal)
    (kwargs : UpdateKwargs) : Except PyError UpdateArguments :=
  match define_key_args h pk_value sk_value with
  | Except.error e => Except.error e
  | Except.ok key =>
      Except.ok { key := key,
                  updateExpression := "SET " ++ attribute_name ++ " = :r",
                  expressionAttributeValues := [(":r", attribute_value)],
                  returnValues := kwargs.returnValues.getD "UPDATED_OLD",
                  conditionExpression :=
                    kwargs.conditionExpression.getD ("attribute_exists(" ++ attribute_name ++ ")") }

/-- The `lookup` message table of `update_item`; an unknown `ReturnValues`
mode would raise `KeyError` on subscript. -/
def returnValuesMessage (rv : String) : Option String :=
  if rv = "UPDATED_OLD" then Option.some "Returned only updated old item"
  else if rv = "ALL_OLD" then Option.some "Returned all old item"
  else if rv = "UPDATED_NEW" then Option.some "Returned only updated new item"
  else if rv = "ALL_NEW" then Option.some "Returned all new item"
  else Option.none

/-- `update_item(pk_value, sk_value, attribute_name, attribute_value,
**kwargs)`: build the arguments, issue `table.update_item` (modelled by
`call` giving the store's reaction to the built arguments), translate a
`ClientError` into `InvalidParameter`, and build the payload from the
response's optional `Attributes`. -/
def update_item (h : TableHandle) (call : UpdateArguments → UpdateCallResult)
    (pk_value : KeyValue) (sk_value : Option KeyValue)
    (attribute_name : String) (attribute_value : PyVal) (kwargs : UpdateKwargs) :
    Except PyError (UpdatePayload × Nat) :=
  match update_item_arguments h pk_value sk_value attribute_name attribute_value kwargs with
  | Except.error e => Except.error e
  | Except.ok arguments =>
    match call arguments with
    | UpdateCallResult.clientError _ =>
        Except.error (PyError.invalidParameter "Check that the attribute value is not empty")
    | UpdateCallResult.ok resp =>
      match resp.attributes with
      | Option.some attrs =>
        (match returnValuesMessage arguments.returnValues with
         | Option.none => Except.error (PyError.keyError arguments.returnValues)
         | Option.some msg =>
             Except.ok ({ data := Option.some attrs, message := msg }, resp.httpStatusCode))
      | Option.none =>
          Except.ok ({ data := Option.none, message := "Item was updated" }, resp.httpStatusCode)

/-! Delete operation. -/

/-- `dump_item(pk_value, sk_value, **kwargs)`: resolve the key, issue
`delete_item`, report success as `statusCode == 200`. -/
def dump_item (h : TableHandle) (resp : WriteResponse) (pk_value : KeyValue)
    (sk_value : Option KeyValue) : Except PyError (Bool × Nat) :=
  match define_key_args h pk_value sk_value with
  | Except.error e => Except.error e
  | Except.ok _arguments => Except.ok (resp.httpStatusCode == 200, resp.httpStatusCode)

/-! Example handles, used by concrete instantiations below.  `exHandle1`
models a table with a simple (partition-only) key, `exHandle2` a table with a
composite (partition + sort) key. -/

/-- A handle over a simple-key table, as `__init__` builds it. -/
def exHandle1 : TableHandle :=
  { verbose := false, debug := false, tableName := "movies",
    keySchema := ["title"], partitionKey := "title",
    sortKey := Option.none, payload := Option.none }

/-- A handle over a composite-key table, as `__init__` builds it. -/
def exHandle2 : TableHandle :=
  { verbose := false, debug := false, tableName := "screenings",
    keySchema := ["movie", "showtime"], partitionKey := "movie",
    sortKey := Option.some "showtime", payload := Option.none }

example : initBase "movies" ["title"] false false = Except.ok exHandle1 := rfl
example : initBase "screenings" ["movie", "showtime"] false false = Except.ok exHandle2 := rfl

/-! Dictionary lemmas. -/

theorem dictGet_cons (k₁ : String) (v₁ : PyVal) (t : Dict) (k : String) :
    dictGet ((k₁, v₁) :: t) k = if k == k₁ then Option.some v₁ else dictGet t k := by
  cases h : (k == k₁) <;> simp [dictGet, List.lookup, h]

theorem dictGet_dictSet_self (d : Dict) (k : String) (v : PyVal) :
    dictGet (dictSet d k v) k = Option.some v := by
  induction d with
  | nil => simp [dictSet, dictGet, List.lookup]
  | cons a t ih =>
    obtain ⟨k₁, v₁⟩ := a
    cases hk : (k₁ == k) with
    | true => simp [dictSet, hk, dictGet, List.lookup]
    | false =>
      have hne : (k == k₁) = false := by
        have : ¬(k₁ = k) := by simpa using hk
        simp [Ne.symm this]
      simp [dictSet, hk, dictGet, List.lookup, hne]
      exact ih

theorem dictGet_dictSet_ne (d : Dict) (k k' : String) (v : PyVal) (h : k' ≠ k) :
    dictGet (dictSet d k v) k' = dictGet d k' := by
  induction d with
  | nil =>
    have hne : (k' == k) = false := by simp [h]
    simp [dictSet, dictGet, List.lookup, hne]
  | cons a t ih =>
    obtain ⟨k₁, v₁⟩ := a
    cases hk : (k₁ == k) with
    | true =>
      have hke : k₁ = k := by simpa using hk
      have hne : (k' == k) = false := by simp [h]
      have hne1 : (k' == k₁) = false := by simp [hke, h]
      simp [dictSet, hk, dictGet, List.lookup, hne, hne1]
    | false =>
      cases hcase : (k' == k₁) <;> simp [dictSet, hk, dictGet, List.lookup, hcase]
      exact ih

theorem dictGet_map_values (f : PyVal → PyVal) (d : Dict) (k : String) :
    dictGet (d.map (fun p => (p.1, f p.2))) k = (dictGet d k).map f := by
  induction d with
  | nil => rfl
  | cons a t ih =>
    obtain ⟨k₁, v₁⟩ := a
    cases hcase : (k == k₁) <;> simp [dictGet, List.lookup, hcase]
    exact ih

/-! Conversion lemmas. -/

theorem native2dynamoStep_keyValue (kv : KeyValue) :
    native2dynamoStep kv.toPyVal = Except.ok kv.toPyVal := by
  cases kv <;> rfl

theorem convertItemsN2D_lookup (d : Dict) (d' : Dict) (k : String) (v v' : PyVal)
    (hconv : convertItemsN2D d = (d', Option.none))
    (hget : dictGet d k = Option.some v)
    (hstep : native2dynamoStep v = Except.ok v') :
    dictGet d' k = Option.some v' := by
  induction d generalizing d' with
  | nil => simp [dictGet, List.lookup] at hget
  | cons a t ih =>
    obtain ⟨k₁, v₁⟩ := a
    cases hs : native2dynamoStep v₁ with
    | error e =>
      rw [convertItemsN2D, hs] at hconv
      simp at hconv
    | ok w =>
      rw [convertItemsN2D, hs] at hconv
      obtain ⟨hd', hsnd⟩ : (k₁, w) :: (convertItemsN2D t).1 = d' ∧ (convertItemsN2D t).2 = Option.none := by
        have h1 := congrArg Prod.fst hconv
        have h2 := congrArg Prod.snd hconv
        exact ⟨h1, h2⟩
      rw [dictGet_cons] at hget
      by_cases hk : (k == k₁) = true
      · rw [hk, if_pos rfl] at hget
        obtain rfl : v₁ = v := by injection hget
        rw [hstep] at hs
        obtain rfl : v' = w := by injection hs
        rw [← hd', dictGet_cons, hk, if_pos rfl]
      · have hkf : (k == k₁) = false := by simpa using hk
        rw [hkf] at hget
        simp only [if_neg Bool.false_ne_true] at hget
        have htail : convertItemsN2D t = ((convertItemsN2D t).1, Option.none) := by
          rw [← hsnd]
        have := ih (convertItemsN2D t).1 htail hget
        rw [← hd', dictGet_cons, hkf]
        simpa using this

theorem convert_dtypes_d2n (item : Dict) :
    convert_dtypes item "dynamo2native"
      = Except.ok (item.map (fun p => (p.1, dynamo2nativeStep p.2))) := rfl

/-! Rational lemmas for the numeric decoder. -/

theorem pyTrunc_eq_num_of_den_one (q : ℚ) (h : q.den = 1) : pyTrunc q = q.num := by
  simp [pyTrunc, h, Int.sign_mul_abs]

theorem rat_eq_trunc_iff_den_one (q : ℚ) : q = mkRat (pyTrunc q) 1 ↔ q.den = 1 := by
  constructor
  · intro h
    rw [Rat.mkRat_one] at h
    conv_lhs => rw [h]
    exact Rat.den_intCast _
  · intro h
    have hq : (q.num : ℚ) = q := (Rat.den_eq_one_iff q).mp h
    rw [Rat.mkRat_one, pyTrunc_eq_num_of_den_one q h, hq]

/-! Unfolding lemmas for the decoder dispatch table. -/

theorem conversions_N : conversions "N" = Option.some convN := rfl

theorem conversions_BOOL : conversions "BOOL" = Option.some convBOOL := rfl

theorem conversions_isSome_iff (tag : String) :
    (conversions tag).isSome ↔ tag ∈ ["N", "S", "BOOL", "NULL", "B", "L", "M", "NS", "SS"] := by
  simp only [conversions]
  by_cases h1 : tag = "N"
  · subst h1; exact iff_of_true (by simp) (by decide)
  by_cases h2 : tag = "S"
  · subst h2; exact iff_of_true (by simp [h1]) (by decide)
  by_cases h3 : tag = "BOOL"
  · subst h3; exact iff_of_true (by simp [h1, h2]) (by decide)
  by_cases h4 : tag = "NULL"
  · subst h4; exact iff_of_true (by simp [h1, h2, h3]) (by decide)
  by_cases h5 : tag = "B"
  · subst h5; exact iff_of_true (by simp [h1, h2, h3, h4]) (by decide)
  by_cases h6 : tag = "L"
  · subst h6; exact iff_of_true (by simp [h1, h2, h3, h4, h5]) (by decide)
  by_cases h7 : tag = "M"
  · subst h7; exact iff_of_true (by simp [h1, h2, h3, h4, h5, h6]) (by decide)
  by_cases h8 : tag = "NS"
  · subst h8; exact iff_of_true (by simp [h1, h2, h3, h4, h5, h6, h7]) (by decide)
  by_cases h9 : tag = "SS"
  · subst h9; exact iff_of_true (by simp [h1, h2, h3, h4, h5, h6, h7, h8]) (by decide)
  simp [h1, h2, h3, h4, h5, h6, h7, h8, h9]

theorem conversions_eq_none_of_not_mem (tag : String)
    (h : tag ∉ ["N", "S", "BOOL", "NULL", "B", "L", "M", "NS", "SS"]) :
    conversions tag = Option.none := by
  cases hc : conversions tag with
  | none => rfl
  | some f =>
    exact absurd ((conversions_isSome_iff tag).mp (by rw [hc]; rfl)) h

/-- The exception `define_key_args` raises for a composite-key table when the
sort key value is absent. -/
def missingSortKey : PyError :=
  PyError.missingParameter "Table requires a sort key value but none was provided"

/-! Claim theorems. -/

/-- C1: the native→wire conversion destroys every byte blob instead of boxing
it — `Binary(bytes)` passes the builtin type object to the `Binary`
constructor, which raises `TypeError` — so an item holding a byte blob and a
float does not round-trip at all; the float half alone does round-trip
exactly. -/
theorem convert_dtypes_round_trip_bytes_crash :
    (convert_dtypes [("poster", PyVal.bytes [0, 1]), ("gross", PyVal.float (mkRat 3 2))]
        "native2dynamo"
      = Except.error (PyError.typeError "Value must be of the following types: bytearray, bytes"))
  ∧ (convert_dtypes [("gross", PyVal.float (mkRat 3 2))] "native2dynamo"
      = Except.ok [("gross", PyVal.decimal (mkRat 3 2))])
  ∧ (convert_dtypes [("gross", PyVal.decimal (mkRat 3 2))] "dynamo2native"
      = Except.ok [("gross", PyVal.float (mkRat 3 2))]) :=
  ⟨rfl, rfl, rfl⟩

/-- C2: on a table whose key schema has two components, `get_by_keys`,
`add_item`, `update_item` and `dump_item` all raise `MissingParameter`
(status code 400) when the sort key value is absent, whatever the store
would have answered. -/
theorem composite_key_ops_require_sort_key
    (h : TableHandle) (hlen : h.keySchema.length = 2)
    (gresp : GetItemResponse) (wresp dresp : WriteResponse)
    (call : UpdateArguments → UpdateCallResult)
    (pk : KeyValue) (attrs : List String) (item : Dict)
    (attribute_name : String) (attribute_value : PyVal) (kwargs : UpdateKwargs) :
    get_by_keys h gresp pk Option.none attrs = Except.error missingSortKey
  ∧ (add_item h wresp pk Option.none item).result = Except.error missingSortKey
  ∧ update_item h call pk Option.none attribute_name attribute_value kwargs
      = Except.error missingSortKey
  ∧ dump_item h dresp pk Option.none = Except.error missingSortKey
  ∧ missingSortKey.code = Option.some 400 := by
  have hd : define_key_args h pk Option.none = Except.error missingSortKey := by
    simp [define_key_args, hlen, missingSortKey]
  refine ⟨?_, ?_, ?_, ?_, rfl⟩
  · simp [get_by_keys, hd]
  · simp [add_item, hd]
  · simp [update_item, update_item_arguments, hd]
  · simp [dump_item, hd]

/-- C2 witness: the composite-key handle with the sort key value left out. -/
theorem composite_key_ops_require_sort_key_witness :
    exHandle2.keySchema.length = 2
  ∧ (get_by_keys exHandle2 { httpStatusCode := 200, item := Option.none }
        (KeyValue.str "Dune") Option.none [] = Except.error missingSortKey
    ∧ (add_item exHandle2 { httpStatusCode := 200 } (KeyValue.str "Dune") Option.none
        [("price", PyVal.int 12)]).result = Except.error missingSortKey
    ∧ update_item exHandle2 (fun _ => UpdateCallResult.ok { httpStatusCode := 200, attributes := Option.none })
        (KeyValue.str "Dune") Option.none "price" (PyVal.int 12)
        { returnValues := Option.none, conditionExpression := Option.none }
        = Except.error missingSortKey
    ∧ dump_item exHandle2 { httpStatusCode := 200 } (KeyValue.str "Dune") Option.none
        = Except.error missingSortKey
    ∧ missingSortKey.code = Option.some 400) :=
  ⟨rfl, composite_key_ops_require_sort_key exHandle2 rfl
      { httpStatusCode := 200, item := Option.none } { httpStatusCode := 200 }
      { httpStatusCode := 200 }
      (fun _ => UpdateCallResult.ok { httpStatusCode := 200, attributes := Option.none })
      (KeyValue.str "Dune") [] [("price", PyVal.int 12)] "price" (PyVal.int 12)
      { returnValues := Option.none, conditionExpression := Option.none }⟩

/-- C3: `batch_get_by_key` raises `NotFoundError` exactly when the decoded
result set is empty, and otherwise, when the store's response carries
unprocessed keys for the table, the payload's `error` field is exactly the
unprocessed key list the store returned. -/
theorem batch_get_notfound_iff_empty_and_error_field
    (h : TableHandle) (resp : BatchGetResponse) (pk_list : List KeyValue)
    (sk_list : Option (List KeyValue)) (attrs : List String)
    (ka : List Dict) (rs : List WireItem) (data : List Item)
    (hka : define_list_key_args h pk_list sk_list = Except.ok ka)
    (hrs : resp.responses.lookup h.tableName = Option.some rs)
    (hdec : infer_types rs = Except.ok data) :
    (batch_get_by_key h resp pk_list sk_list attrs
        = Except.error (PyError.notFoundError "None of the items were found")
      ↔ data = [])
  ∧ (∀ keys, data ≠ [] →
       resp.unprocessedKeys.lookup h.tableName = Option.some keys →
       batch_get_by_key h resp pk_list sk_list attrs
         = Except.ok ({ data := data, error := Option.some keys }, resp.httpStatusCode)) := by
  constructor
  · constructor
    · intro hres
      by_contra hne
      have hie : data.isEmpty = false := by
        cases data with
        | nil => exact absurd rfl hne
        | cons a t => rfl
      simp only [batch_get_by_key, hka, hrs, hdec, hie] at hres
      cases hu : resp.unprocessedKeys.isEmpty with
      | true => rw [hu] at hres; simp at hres
      | false =>
        rw [hu] at hres
        cases hl : resp.unprocessedKeys.lookup h.tableName with
        | none => rw [hl] at hres; simp at hres
        | some keys => rw [hl] at hres; simp at hres
    · intro hempty
      subst hempty
      simp [batch_get_by_key, hka, hrs, hdec]
  · intro keys hne hl
    have hie : data.isEmpty = false := by
      cases data with
      | nil => exact absurd rfl hne
      | cons a t => rfl
    have hu : resp.unprocessedKeys.isEmpty = false := by
      cases hval : resp.unprocessedKeys with
      | nil => rw [hval] at hl; simp [List.lookup] at hl
      | cons a t => rfl
    simp [batch_get_by_key, hka, hrs, hdec, hie, hu, hl]

/-- The batch response used to instantiate the C3 theorem: one of two
requested titles found, the other reported unprocessed. -/
def exBatchResp : BatchGetResponse :=
  { httpStatusCode := 200,
    responses := [("movies", [[("title", [("S", "Dune")])]])],
    unprocessedKeys := [("movies", [[("title", PyVal.str "Tron")]])] }

/-- C3 witness: concrete batch call whose `error` field is exactly the
store's unprocessed key list. -/
theorem batch_get_notfound_iff_empty_and_error_field_witness :
    (define_list_key_args exHandle1 [KeyValue.str "Dune", KeyValue.str "Tron"] Option.none
        = Except.ok [[("title", PyVal.str "Dune")], [("title", PyVal.str "Tron")]])
  ∧ (exBatchResp.responses.lookup exHandle1.tableName
        = Option.some [[("title", [("S", "Dune")])]])
  ∧ (infer_types [[("title", [("S", "Dune")])]] = Except.ok [[("title", PyVal.str "Dune")]])
  ∧ (([[("title", PyVal.str "Dune")]] : List Item) ≠ [])
  ∧ (exBatchResp.unprocessedKeys.lookup exHandle1.tableName
        = Option.some [[("title", PyVal.str "Tron")]])
  ∧ batch_get_by_key exHandle1 exBatchResp [KeyValue.str "Dune", KeyValue.str "Tron"]
      Option.none []
      = Except.ok ({ data := [[("title", PyVal.str "Dune")]],
                     error := Option.some [[("title", PyVal.str "Tron")]] }, 200) := by
  refine ⟨rfl, rfl, rfl, by simp, rfl, ?_⟩
  exact (batch_get_notfound_iff_empty_and_error_field exHandle1 exBatchResp
      [KeyValue.str "Dune", KeyValue.str "Tron"] Option.none []
      [[("title", PyVal.str "Dune")], [("title", PyVal.str "Tron")]]
      [[("title", [("S", "Dune")])]] [[("title", PyVal.str "Dune")]]
      rfl rfl rfl).2 [[("title", PyVal.str "Tron")]] (by simp) rfl

/-- C4: the `N` decoder of `infer_types` yields a Python int exactly when the
parsed numeric value has no fractional part and otherwise a float carrying
the exact fraction; the decoder dispatch table is defined on precisely the
nine wire tags `N`, `S`, `BOOL`, `NULL`, `B`, `L`, `M`, `NS`, `SS`, and any
other tag makes `infer_types` raise `KeyError`. -/
theorem infer_types_numeric_integrality_and_tags :
    (∀ (attr s : String) (q : ℚ), pyFloat s = Option.some q →
        (q.den = 1 → infer_types [[(attr, [("N", s)])]] = Except.ok [[(attr, PyVal.int q.num)]])
      ∧ (q.den ≠ 1 → infer_types [[(attr, [("N", s)])]] = Except.ok [[(attr, PyVal.float q)]]))
  ∧ (∀ tag : String, (conversions tag).isSome
        ↔ tag ∈ ["N", "S", "BOOL", "NULL", "B", "L", "M", "NS", "SS"])
  ∧ (∀ (attr tag payload : String),
        tag ∉ ["N", "S", "BOOL", "NULL", "B", "L", "M", "NS", "SS"] →
        infer_types [[(attr, [(tag, payload)])]] = Except.error (PyError.keyError tag)) := by
  refine ⟨?_, conversions_isSome_iff, ?_⟩
  · intro attr s q hp
    constructor
    · intro hden
      have hcond : q = mkRat (pyTrunc q) 1 := (rat_eq_trunc_iff_den_one q).mpr hden
      have htr : pyTrunc q = q.num := pyTrunc_eq_num_of_den_one q hden
      have hstep : convN s = Except.ok (PyVal.int q.num) := by
        unfold convN
        rw [hp]
        show (if q = mkRat (pyTrunc q) 1 then Except.ok (PyVal.int (pyTrunc q))
              else Except.ok (PyVal.float q)) = _
        rw [if_pos hcond, htr]
      simp [infer_types, inferItem, applyConversions, conversions_N, hstep]
    · intro hden
      have hcond : ¬(q = mkRat (pyTrunc q) 1) :=
        fun hc => hden ((rat_eq_trunc_iff_den_one q).mp hc)
      have hstep : convN s = Except.ok (PyVal.float q) := by
        unfold convN
        rw [hp]
        show (if q = mkRat (pyTrunc q) 1 then Except.ok (PyVal.int (pyTrunc q))
              else Except.ok (PyVal.float q)) = _
        rw [if_neg hcond]
      simp [infer_types, inferItem, applyConversions, conversions_N, hstep]
  · intro attr tag payload hmem
    have hc : conversions tag = Option.none := conversions_eq_none_of_not_mem tag hmem
    simp [infer_types, inferItem, applyConversions, hc]

/-- C4 witness: `"3.0"` decodes to the integer 3, `"3.5"` to the float 3.5,
and the unrecognized tag `"X"` raises `KeyError`. -/
theorem infer_types_numeric_integrality_and_tags_witness :
    pyFloat "3.0" = Option.some (mkRat 30 10)
  ∧ (mkRat 30 10 : ℚ).den = 1
  ∧ infer_types [[("year", [("N", "3.0")])]] = Except.ok [[("year", PyVal.int 3)]]
  ∧ pyFloat "3.5" = Option.some (mkRat 35 10)
  ∧ (mkRat 35 10 : ℚ).den ≠ 1
  ∧ infer_types [[("year", [("N", "3.5")])]] = Except.ok [[("year", PyVal.float (mkRat 35 10))]]
  ∧ ("X" ∉ (["N", "S", "BOOL", "NULL", "B", "L", "M", "NS", "SS"] : List String))
  ∧ infer_types [[("a", [("X", "1")])]] = Except.error (PyError.keyError "X") := by
  refine ⟨rfl, rfl, ?_, rfl, by decide, ?_, by decide, ?_⟩
  · exact ((infer_types_numeric_integrality_and_tags.1 "year" "3.0" (mkRat 30 10) rfl).1 rfl)
  · exact ((infer_types_numeric_integrality_and_tags.1 "year" "3.5" (mkRat 35 10) rfl).2 (by decide))
  · exact (infer_types_numeric_integrality_and_tags.2.2 "a" "X" "1" (by decide))

/-- C5 counterexample: `"tRue"` is the case-insensitive token "true", yet the
`BOOL` decoder maps it to `false`, so boolean decoding is not
case-insensitive. -/
theorem bool_decode_mixed_case_true_is_false :
    lowerAscii "tRue" = "true"
  ∧ infer_types [[("sold_out", [("BOOL", "tRue")])]]
      = Except.ok [[("sold_out", PyVal.bool false)]] :=
  ⟨rfl, rfl⟩

/-- C5 amended: the `BOOL` decoder yields `true` exactly for the three
spellings `"True"`, `"true"`, `"TRUE"` and `false` for every other string. -/
theorem bool_decode_exact_spellings (attr s : String) :
    infer_types [[(attr, [("BOOL", s)])]]
      = Except.ok [[(attr, PyVal.bool (s == "True" || s == "true" || s == "TRUE"))]] := by
  simp [infer_types, inferItem, applyConversions, conversions_BOOL, convBOOL]

/-- C6 counterexample: the read-direction conversion maps the exact-decimal
value 3 (no fractional part) to the float 3.0, not to an integer. -/
theorem dynamo2native_integral_decimal_stays_float :
    convert_dtypes [("year", PyVal.decimal (mkRat 3 1))] "dynamo2native"
      = Except.ok [("year", PyVal.float (mkRat 3 1))]
  ∧ PyVal.float (mkRat 3 1) ≠ PyVal.int 3 :=
  ⟨rfl, by intro hc; cases hc⟩

/-- C6 amended: in the read-direction conversion every boxed binary value is
unwrapped to its raw bytes and every exact-decimal value — integral or not —
converts to a float. -/
theorem dynamo2native_unwraps_binary_and_floats_decimal (item : Dict) (k : String) :
    (∀ b, dictGet item k = Option.some (PyVal.binary b) →
        ∃ d, convert_dtypes item "dynamo2native" = Except.ok d
          ∧ dictGet d k = Option.some (PyVal.bytes b))
  ∧ (∀ q, dictGet item k = Option.some (PyVal.decimal q) →
        ∃ d, convert_dtypes item "dynamo2native" = Except.ok d
          ∧ dictGet d k = Option.some (PyVal.float q)) := by
  constructor
  · intro b hb
    refine ⟨_, convert_dtypes_d2n item, ?_⟩
    rw [dictGet_map_values, hb]
    rfl
  · intro q hq
    refine ⟨_, convert_dtypes_d2n item, ?_⟩
    rw [dictGet_map_values, hq]
    rfl

/-- C6 witness: a concrete item holding a boxed binary and an integral
decimal. -/
theorem dynamo2native_unwraps_binary_and_floats_decimal_witness :
    (dictGet [("poster", PyVal.binary [7]), ("year", PyVal.decimal (mkRat 3 1))] "poster"
        = Option.some (PyVal.binary [7]))
  ∧ (∃ d, convert_dtypes [("poster", PyVal.binary [7]), ("year", PyVal.decimal (mkRat 3 1))]
        "dynamo2native" = Except.ok d
      ∧ dictGet d "poster" = Option.some (PyVal.bytes [7])) :=
  ⟨rfl, (dynamo2native_unwraps_binary_and_floats_decimal
      [("poster", PyVal.binary [7]), ("year", PyVal.decimal (mkRat 3 1))] "poster").1 [7] rfl⟩

/-- C7: the item `add_item` hands to the store always carries the resolved
key values in the key fields, even when the caller's item supplied
conflicting values under the same attribute names. -/
theorem add_item_key_fields_override
    (h : TableHandle) (resp : WriteResponse) (pk : KeyValue) (sk : Option KeyValue)
    (item st : Dict)
    (hst : (add_item h resp pk sk item).storedItem = Option.some st) :
    (h.keySchema.length ≠ 2 → dictGet st h.partitionKey = Option.some pk.toPyVal)
  ∧ (∀ skv sortName, h.keySchema.length = 2 → sk = Option.some skv →
       h.sortKey = Option.some sortName →
       dictGet st sortName = Option.some skv.toPyVal
     ∧ (h.partitionKey ≠ sortName → dictGet st h.partitionKey = Option.some pk.toPyVal)) := by
  have hex : ∃ ka, define_key_args h pk sk = Except.ok ka
      ∧ convertItemsN2D (ka.foldl (fun d kv => dictSet d kv.1 kv.2) item)
          = (st, Option.none) := by
    unfold add_item at hst
    cases hka : define_key_args h pk sk with
    | error e => rw [hka] at hst; simp at hst
    | ok ka =>
      rw [hka] at hst
      simp only at hst
      cases hcv : convertItemsN2D (ka.foldl (fun d kv => dictSet d kv.1 kv.2) item) with
      | mk d oe =>
        cases oe with
        | some e => rw [hcv] at hst; simp at hst
        | none =>
          rw [hcv] at hst
          simp only [Option.some.injEq] at hst
          exact ⟨ka, rfl, by rw [hcv, hst]⟩
  obtain ⟨ka, hka, hcv⟩ := hex
  constructor
  · intro hne2
    have hka' : ka = [(h.partitionKey, pk.toPyVal)] := by
      simp [define_key_args, hne2] at hka
      exact hka.symm
    subst hka'
    have hmerged : ([(h.partitionKey, pk.toPyVal)] : Dict).foldl
        (fun d kv => dictSet d kv.1 kv.2) item = dictSet item h.partitionKey pk.toPyVal := by
      simp [List.foldl]
    rw [hmerged] at hcv
    exact convertItemsN2D_lookup _ _ _ _ _ hcv (dictGet_dictSet_self _ _ _)
      (native2dynamoStep_keyValue pk)
  · intro skv sortName hlen hsk hsort
    subst hsk
    have hka' : ka = dictSet [(h.partitionKey, pk.toPyVal)] sortName skv.toPyVal := by
      simp [define_key_args, hlen, hsort] at hka
      exact hka.symm
    subst hka'
    by_cases hps : h.partitionKey = sortName
    · have hset : dictSet [(h.partitionKey, pk.toPyVal)] sortName skv.toPyVal
          = [(sortName, skv.toPyVal)] := by
        simp [dictSet, hps]
      rw [hset] at hcv
      have hmerged : ([(sortName, skv.toPyVal)] : Dict).foldl
          (fun d kv => dictSet d kv.1 kv.2) item = dictSet item sortName skv.toPyVal := by
        simp [List.foldl]
      rw [hmerged] at hcv
      refine ⟨?_, fun hcontra => absurd hps hcontra⟩
      exact convertItemsN2D_lookup _ _ _ _ _ hcv (dictGet_dictSet_self _ _ _)
        (native2dynamoStep_keyValue skv)
    · have hset : dictSet [(h.partitionKey, pk.toPyVal)] sortName skv.toPyVal
          = [(h.partitionKey, pk.toPyVal), (sortName, skv.toPyVal)] := by
        simp [dictSet, hps]
      rw [hset] at hcv
      have hmerged : ([(h.partitionKey, pk.toPyVal), (sortName, skv.toPyVal)] : Dict).foldl
          (fun d kv => dictSet d kv.1 kv.2) item
          = dictSet (dictSet item h.partitionKey pk.toPyVal) sortName skv.toPyVal := by
        simp [List.foldl]
      rw [hmerged] at hcv
      constructor
      · exact convertItemsN2D_lookup _ _ _ _ _ hcv (dictGet_dictSet_self _ _ _)
          (native2dynamoStep_keyValue skv)
      · intro hpne
        have hget : dictGet (dictSet (dictSet item h.partitionKey pk.toPyVal) sortName
            skv.toPyVal) h.partitionKey = Option.some pk.toPyVal := by
          rw [dictGet_dictSet_ne _ _ _ _ hpne, dictGet_dictSet_self]
        exact convertItemsN2D_lookup _ _ _ _ _ hcv hget (native2dynamoStep_keyValue pk)

/-- The caller's item for the C7 instantiation, with values conflicting with
both key fields. -/
def exConflictItem : Dict :=
  [("movie", PyVal.str "evil"), ("showtime", PyVal.int 0),
   ("price", PyVal.float (mkRat 15 2))]

/-- The item `add_item` stores for `exConflictItem`: key fields overridden by
the resolved key, float converted to an exact decimal. -/
def exStoredItem : Dict :=
  [("movie", PyVal.str "Dune"), ("showtime", PyVal.int 1930),
   ("price", PyVal.decimal (mkRat 15 2))]

/-- C7 witness: the conflicting values `"evil"` and `0` are overridden by the
resolved key `("Dune", 1930)`. -/
theorem add_item_key_fields_override_witness :
    ((add_item exHandle2 { httpStatusCode := 200 } (KeyValue.str "Dune")
        (Option.some (KeyValue.int 1930)) exConflictItem).storedItem
      = Option.some exStoredItem)
  ∧ (dictGet exStoredItem "showtime" = Option.some (PyVal.int 1930)
    ∧ ("movie" ≠ "showtime" → dictGet exStoredItem "movie" = Option.some (PyVal.str "Dune"))) :=
  ⟨rfl, (add_item_key_fields_override exHandle2 { httpStatusCode := 200 }
      (KeyValue.str "Dune") (Option.some (KeyValue.int 1930)) exConflictItem exStoredItem
      rfl).2 (KeyValue.int 1930) "showtime" rfl rfl rfl⟩

/-- C8: `update_item` without explicit options builds its arguments with the
condition expression `attribute_exists(attribute_name)` and the return-value
mode `UPDATED_OLD`, and raises `InvalidParameter` (status code 400) whenever
the store client rejects the call with `ClientError` — in particular when the
conditional check fails because the target attribute is absent. -/
theorem update_item_default_condition_and_client_error
    (h : TableHandle) (call : UpdateArguments → UpdateCallResult)
    (pk : KeyValue) (sk : Option KeyValue)
    (attribute_name : String) (attribute_value : PyVal) (args : UpdateArguments)
    (hargs : update_item_arguments h pk sk attribute_name attribute_value
        { returnValues := Option.none, conditionExpression := Option.none }
        = Except.ok args) :
    args.conditionExpression = "attribute_exists(" ++ attribute_name ++ ")"
  ∧ args.returnValues = "UPDATED_OLD"
  ∧ (∀ msg, call args = UpdateCallResult.clientError msg →
       update_item h call pk sk attribute_name attribute_value
         { returnValues := Option.none, conditionExpression := Option.none }
         = Except.error (PyError.invalidParameter "Check that the attribute value is not empty"))
  ∧ PyError.code (PyError.invalidParameter "Check that the attribute value is not empty")
      = Option.some 400 := by
  have hfields : args.conditionExpression = "attribute_exists(" ++ attribute_name ++ ")"
      ∧ args.returnValues = "UPDATED_OLD" := by
    unfold update_item_arguments at hargs
    cases hka : define_key_args h pk sk with
    | error e => rw [hka] at hargs; simp at hargs
    | ok key =>
      rw [hka] at hargs
      simp only [Except.ok.injEq] at hargs
      rw [← hargs]
      exact ⟨rfl, rfl⟩
  refine ⟨hfields.1, hfields.2, ?_, rfl⟩
  intro msg hcall
  simp [update_item, hargs, hcall]

/-- C8 witness: default options against a store that reports a failed
conditional check. -/
theorem update_item_default_condition_and_client_error_witness :
    (update_item_arguments exHandle1 (KeyValue.str "Dune") Option.none "rating" (PyVal.int 9)
        { returnValues := Option.none, conditionExpression := Option.none }
      = Except.ok
          { key := [("title", PyVal.str "Dune")],
            updateExpression := "SET rating = :r",
            expressionAttributeValues := [(":r", PyVal.int 9)],
            returnValues := "UPDATED_OLD",
            conditionExpression := "attribute_exists(rating)" })
  ∧ ({ key := [("title", PyVal.str "Dune")],
       updateExpression := "SET rating = :r",
       expressionAttributeValues := [(":r", PyVal.int 9)],
       returnValues := "UPDATED_OLD",
       conditionExpression := "attribute_exists(rating)" : UpdateArguments }.conditionExpression
      = "attribute_exists(" ++ "rating" ++ ")")
  ∧ update_item exHandle1
      (fun _ => UpdateCallResult.clientError "ConditionalCheckFailedException")
      (KeyValue.str "Dune") Option.none "rating" (PyVal.int 9)
      { returnValues := Option.none, conditionExpression := Option.none }
      = Except.error (PyError.invalidParameter "Check that the attribute value is not empty") := by
  refine ⟨rfl, ?_, ?_⟩
  · exact (update_item_default_condition_and_client_error exHandle1
      (fun _ => UpdateCallResult.clientError "ConditionalCheckFailedException")
      (KeyValue.str "Dune") Option.none "rating" (PyVal.int 9) _ rfl).1
  · exact (update_item_default_condition_and_client_error exHandle1
      (fun _ => UpdateCallResult.clientError "ConditionalCheckFailedException")
      (KeyValue.str "Dune") Option.none "rating" (PyVal.int 9) _ rfl).2.2.1
      "ConditionalCheckFailedException" rfl

/-- C9: the handle is not immutable — `scan_table` assigns the empty dict to
the handle's `payload` attribute, so the handle object differs after the
call (every schema-derived field is untouched, but the claim quantifies over
every attribute of the handle object). -/
theorem scan_table_mutates_the_handle :
    exHandle1.payload = Option.none
  ∧ (scan_table exHandle1 { httpStatusCode := 200, items := [] }).1.payload = Option.some []
  ∧ (scan_table exHandle1 { httpStatusCode := 200, items := [] }).1 ≠ exHandle1 := by
  refine ⟨rfl, rfl, ?_⟩
  intro hcontra
  have hp := congrArg TableHandle.payload hcontra
  simp [scan_table, exHandle1] at hp

/-- C10 counterexample: `add_item` on an item holding a byte blob raises
`TypeError` (the `Binary(bytes)` slip) and leaves the blob unboxed in the
caller's dictionary — no boxed binary is ever written into it. -/
theorem add_item_bytes_crash_not_boxed :
    ((add_item exHandle1 { httpStatusCode := 200 } (KeyValue.str "Dune") Option.none
        [("poster", PyVal.bytes [7])]).result
      = Except.error (PyError.typeError "Value must be of the following types: bytearray, bytes"))
  ∧ ((add_item exHandle1 { httpStatusCode := 200 } (KeyValue.str "Dune") Option.none
        [("poster", PyVal.bytes [7])]).callerItem
      = [("poster", PyVal.bytes [7]), ("title", PyVal.str "Dune")]) :=
  ⟨rfl, rfl⟩

/-- C10 amended: `add_item` mutates the caller's dictionary in place — after
a successful call the caller's dictionary is exactly the stored item (key
fields merged in, floats replaced by exact decimals), and when key
resolution fails the dictionary is untouched. -/
theorem add_item_in_place_mutation
    (h : TableHandle) (resp : WriteResponse) (pk : KeyValue) (sk : Option KeyValue)
    (item : Dict) :
    (∀ st, (add_item h resp pk sk item).storedItem = Option.some st →
        (add_item h resp pk sk item).callerItem = st)
  ∧ (h.keySchema.length = 2 →
        (add_item h resp pk Option.none item).callerItem = item) := by
  constructor
  · intro st hst
    unfold add_item at hst ⊢
    cases hka : define_key_args h pk sk with
    | error e => rw [hka] at hst; simp at hst
    | ok ka =>
      rw [hka] at hst
      simp only at hst ⊢
      cases hcv : convertItemsN2D (ka.foldl (fun d kv => dictSet d kv.1 kv.2) item) with
      | mk d oe =>
        cases oe with
        | some e => rw [hcv] at hst; simp at hst
        | none =>
          rw [hcv] at hst
          simp only [Option.some.injEq] at hst
          simpa using hst
  · intro hlen
    have hd : define_key_args h pk Option.none = Except.error missingSortKey := by
      simp [define_key_args, hlen, missingSortKey]
    simp [add_item, hd]

/-- C10 witness: a float attribute is decimalized in place and visible to the
caller; with a missing sort key the caller's dictionary is untouched. -/
theorem add_item_in_place_mutation_witness :
    ((add_item exHandle1 { httpStatusCode := 200 } (KeyValue.str "Dune") Option.none
        [("gross", PyVal.float (mkRat 3 2))]).storedItem
      = Option.some [("gross", PyVal.decimal (mkRat 3 2)), ("title", PyVal.str "Dune")])
  ∧ ((add_item exHandle1 { httpStatusCode := 200 } (KeyValue.str "Dune") Option.none
        [("gross", PyVal.float (mkRat 3 2))]).callerItem
      = [("gross", PyVal.decimal (mkRat 3 2)), ("title", PyVal.str "Dune")])
  ∧ exHandle2.keySchema.length = 2
  ∧ (add_item exHandle2 { httpStatusCode := 200 } (KeyValue.str "Dune") Option.none
        [("x", PyVal.int 1)]).callerItem = [("x", PyVal.int 1)] := by
  refine ⟨rfl, ?_, rfl, ?_⟩
  · exact (add_item_in_place_mutation exHandle1 { httpStatusCode := 200 }
      (KeyValue.str "Dune") Option.none [("gross", PyVal.float (mkRat 3 2))]).1
      [("gross", PyVal.decimal (mkRat 3 2)), ("title", PyVal.str "Dune")] rfl
  · exact (add_item_in_place_mutation exHandle2 { httpStatusCode := 200 }
      (KeyValue.str "Dune") Option.none [("x", PyVal.int 1)]).2 rfl

end BaseDB
